import Mathlib

/-!
Shallow embedding of the sales-dashboard core of
`src/panel_de_ventas_con_google_drive.py`: the fetch/load/validate pipeline
(`load_data`, lines 24-90), the `st.cache_data` memoization wrapping it,
temporal enrichment (lines 110-133), the filter engine with its empty-result
fallback (`df_filtrado`, lines 180-194), the per-salesperson aggregation and
derived ratio (`pedidos_vendedor`, lines 316-327), and the month-over-month
comparison (`mes_anterior` / `variacion`, lines 231-242).
-/

set_option maxRecDepth 4000

namespace PanelVentas

/-! ## Loader data model

A fetched file, once parsed by `pd.read_excel`, is a header (list of column
names) plus rows; a cell may be null (`Option.none` models a NaN/empty cell),
since the spreadsheet format places no non-null constraint on cells. -/

/-- A parsed spreadsheet: `columns` is the header row, each row is an
association list from column name to an optional cell value (`none` = null
cell, as `pd.read_excel` produces NaN for empty cells). -/
structure ParsedFile where
  columns : List String
  rows : List (List (String × Option String))
  deriving DecidableEq, Repr

/-- The fixed list of twelve required column names checked by `load_data`
(source lines 65-67). -/
def required_columns : List String :=
  ["Vendedor", "Fecha Pedido", "Nombre Cliente", "Codigo Cliente",
   "Pedido", "Codigo Producto", "Nombre Producto", "Cantidad",
   "Precio", "Monto Total", "Caja", "Centro"]

/-- Cell lookup in a row by column name (`none` when the column is absent or
the cell is null). -/
def cell (row : List (String × Option String)) (c : String) : Option String :=
  match row.find? (fun p => p.1 == c) with
  | some p => p.2
  | none => none

/-- The list `missing` computed at source line 70:
`[col for col in required_columns if col not in df.columns]`. -/
def missingColumns (f : ParsedFile) : List String :=
  required_columns.filter (fun c => !(f.columns.contains c))

/-- Whether every row of a parsed file has a non-null cell in all twelve
required columns (the property stated by the spec's Dataset invariant; the
code never computes this). -/
def allRequiredNonNull (f : ParsedFile) : Bool :=
  f.rows.all (fun row => required_columns.all (fun c => (cell row c).isSome))

/-! ## Fetcher and loader

`load_data` loops over the candidate URLs in order.  Each attempt ends in one
of: a network/HTTP exception, a zero-byte download (`os.path.getsize == 0`
raises `ValueError`, line 58-59), a parse failure of `pd.read_excel`, or a
parsed file.  The fetch itself is external I/O, so the model takes the
per-source outcome as input; the loop logic (order, warnings, validation,
`continue`, final `return None`) is translated from the source. -/

/-- Outcome of fetching and parsing one candidate source URL. -/
inductive FetchOutcome where
  | networkError
  | emptyDownload
  | parseError
  | file (f : ParsedFile)
  deriving DecidableEq, Repr

/-- A recoverable per-source failure, reported via `st.warning` in the loop
body (lines 71 and 78) before `continue`. -/
inductive SourceFailure where
  | networkError
  | emptyDownload
  | parseError
  | missingCols (cols : List String)
  deriving DecidableEq, Repr

/-- The `load_data` source loop (lines 34-90): try each candidate in listed
order; a network error, empty download or parse error is caught, reported as
a warning and the loop continues; a parsed file missing required columns is
reported with the missing list and the loop continues; the first parsed file
with all required columns present is returned.  When every source fails the
function returns `none` (the Python `return None` at line 90).  The result is
the accumulated warning list paired with the dataset-or-`none`. -/
def load_data : List FetchOutcome → List SourceFailure × Option ParsedFile
  | [] => ([], none)
  | FetchOutcome.networkError :: rest =>
      let r := load_data rest
      (SourceFailure.networkError :: r.1, r.2)
  | FetchOutcome.emptyDownload :: rest =>
      let r := load_data rest
      (SourceFailure.emptyDownload :: r.1, r.2)
  | FetchOutcome.parseError :: rest =>
      let r := load_data rest
      (SourceFailure.parseError :: r.1, r.2)
  | FetchOutcome.file f :: rest =>
      if missingColumns f = [] then ([], some f)
      else
        let r := load_data rest
        (SourceFailure.missingCols (missingColumns f) :: r.1, r.2)

/-! ## Load cache

`load_data` is wrapped by `@st.cache_data(ttl=3600)` (line 24).  Streamlit's
`st.cache_data` memoizes the *returned value* of the function — whatever that
value is, including `None`; only a raised exception escapes caching, and
`load_data` returns `None` on total failure instead of raising.  The model
keeps the cached value with its store time and a TTL of 3600 seconds. -/

/-- The cache state of the `st.cache_data` wrapper: either empty or one
stored entry (the returned value of `load_data` plus the time it was
stored).  There is a single entry because `load_data` takes no arguments. -/
structure CacheState where
  entry : Option ((List SourceFailure × Option ParsedFile) × Nat)
  deriving DecidableEq, Repr

/-- The `ttl=3600` argument of `st.cache_data` at line 24. -/
def cacheTTL : Nat := 3600

/-- One access through the `st.cache_data(ttl=3600)` wrapper at time `now`:
on a hit within the TTL window the cached value is returned without running
`load_data`; on a miss or after expiry `load_data` runs and its returned
value — success or the `none` failure signal alike — is stored.  The third
component records whether the underlying pipeline was invoked. -/
def cachedLoadData (sources : List FetchOutcome) (s : CacheState) (now : Nat) :
    (List SourceFailure × Option ParsedFile) × CacheState × Bool :=
  match s.entry with
  | some (v, t) =>
      if now < t + cacheTTL then (v, s, false)
      else
        let v := load_data sources
        (v, ⟨some (v, now)⟩, true)
  | none =>
      let v := load_data sources
      (v, ⟨some (v, now)⟩, true)

/-- The `st.cache_data.clear()` performed by the refresh button (line 612). -/
def clearCache : CacheState := ⟨none⟩

/-! ## Typed dataset and temporal enrichment

Once loaded and validated, the dashboard treats the dataset as typed rows.
The `Fecha Pedido` timestamp is modelled as a serial day count (days since
0000-03-01 in the proleptic Gregorian calendar, the standard civil-day
encoding) plus an hour-of-day; the pandas `.dt` accessors `year`, `month`,
`day`, `day_name`, `isocalendar().week`, `hour` are modelled by the standard
civil-calendar algorithms on that serial count. -/

/-- One typed row of the validated dataset (the twelve required columns). -/
structure SaleRecord where
  vendedor : String
  fechaPedido : Nat
  hora : Nat
  nombreCliente : String
  codigoCliente : String
  pedido : String
  codigoProducto : String
  nombreProducto : String
  cantidad : Int
  precio : Rat
  montoTotal : Rat
  caja : Int
  centro : String
  deriving DecidableEq, Repr

/-- The ordered weekday list of source line 120 (`dias_semana`), Monday
first, used as the category order of the `Dia Semana` column. -/
def dias_semana : List String :=
  ["Monday", "Tuesday", "Wednesday", "Thursday", "Friday", "Saturday", "Sunday"]

/-- Weekday index of a serial civil day (Monday = 0).  Day 0, 0000-03-01,
was a Wednesday, hence the offset 2. -/
def weekdayIdx (n : Nat) : Nat := (n + 2) % 7

/-- The weekday name produced by pandas `Series.dt.day_name()` for the
timestamp with serial day `n`. -/
def dayName (n : Nat) : String := dias_semana.getD (weekdayIdx n) ""

/-- Civil (year, month, day) of a serial day count, the standard
days-to-civil conversion on the proleptic Gregorian calendar (models the
pandas `.dt.year` / `.dt.month` / `.dt.day` accessors). -/
def civilFromDays (n : Nat) : Nat × Nat × Nat :=
  let era := n / 146097
  let doe := n % 146097
  let yoe := (doe - doe / 1460 + doe / 36524 - doe / 146096) / 365
  let y := yoe + era * 400
  let doy := doe - (365 * yoe + yoe / 4 - yoe / 100)
  let mp := (5 * doy + 2) / 153
  let d := doy - (153 * mp + 2) / 5 + 1
  let m := if mp < 10 then mp + 3 else mp - 9
  (if m ≤ 2 then y + 1 else y, m, d)

/-- Serial day count of a civil (year, month, day), inverse of
`civilFromDays` for valid dates. -/
def daysFromCivil (y m d : Nat) : Nat :=
  let y2 := if m ≤ 2 then y - 1 else y
  let era := y2 / 400
  let yoe := y2 % 400
  let mp := if 2 < m then m - 3 else m + 9
  let doy := (153 * mp + 2) / 5 + d - 1
  let doe := yoe * 365 + yoe / 4 - yoe / 100 + doy
  era * 146097 + doe

/-- ISO-8601 week number of a serial day (models pandas
`.dt.isocalendar().week`): the week number is taken from the Thursday of the
day's Monday-based week. -/
def isoWeek (n : Nat) : Nat :=
  let thursday := n + 3 - weekdayIdx n
  let y := (civilFromDays thursday).1
  (thursday - daysFromCivil y 1 1) / 7 + 1

/-- An enriched row: the source row plus the derived calendar attributes
added at source lines 112-124 (`Mes`, `Ano`, `Dia`, `Dia Semana`, `Semana`,
`Hora`, `Es Dia Habitl`). -/
structure EnrichedRecord where
  base : SaleRecord
  mes : Nat
  ano : Nat
  dia : Nat
  diaSemana : String
  semana : Nat
  hora : Nat
  esDiaHabil : Bool
  deriving DecidableEq, Repr

/-- Temporal enrichment of one record, translated from source lines 112-124:
date components via the `.dt` accessors, the weekday name categorised over
`dias_semana`, and `Es Dia Habitl` defined as membership of the weekday name
in Monday..Saturday (line 124). -/
def enrichRecord (r : SaleRecord) : EnrichedRecord :=
  let c := civilFromDays r.fechaPedido
  { base := r
    mes := c.2.1
    ano := c.1
    dia := c.2.2
    diaSemana := dayName r.fechaPedido
    semana := isoWeek r.fechaPedido
    hora := r.hora
    esDiaHabil := ["Monday", "Tuesday", "Wednesday", "Thursday", "Friday",
                   "Saturday"].contains (dayName r.fechaPedido) }

/-- Temporal enrichment of the whole dataset: the column assignments of
lines 112-124 compute one derived value per row, i.e. a row-wise map. -/
def enrich (df : List SaleRecord) : List EnrichedRecord := df.map enrichRecord

/-! ## Filter engine

Source lines 180-194: the sidebar selection is a year, a month, a multiset
of centers and a multiset of salespeople; `df_filtrado` is the conjunctive
row filter, replaced by the full dataset (plus an `st.warning`) when the
subset is empty. -/

/-- The sidebar filter selection (year, month, selected centers, selected
salespeople). -/
structure FilterSelection where
  ano : Nat
  mes : Nat
  centros : List String
  vendedores : List String
  deriving DecidableEq, Repr

/-- The row predicate of source lines 183-186: `Ano` equals the selected
year, `Mes` equals the selected month, `Centro` is in the selected centers
and `Vendedor` is in the selected salespeople. -/
def matchesFilter (sel : FilterSelection) (e : EnrichedRecord) : Bool :=
  e.ano == sel.ano && e.mes == sel.mes &&
    sel.centros.contains e.base.centro && sel.vendedores.contains e.base.vendedor

/-- The filter engine of lines 182-191: apply the conjunctive filter; if the
result is empty, warn (`Bool` flag `true`) and fall back to the full
dataset, otherwise return the subset with no warning. -/
def df_filtrado (df : List EnrichedRecord) (sel : FilterSelection) :
    List EnrichedRecord × Bool :=
  let sub := df.filter (matchesFilter sel)
  if sub.isEmpty then (df, true) else (sub, false)

/-! ## Per-salesperson aggregation and the orders-per-day ratio

Source lines 319-327 group the filtered dataset by `Vendedor`, aggregate
`Pedido` and `Dia` with `nunique` and `Monto Total` with `sum`, then derive
`Pedidos/Día = Pedido / Dia` as a plain pandas float division.  Pandas float
division never raises on a zero denominator: `x / 0` is `+inf` for `x > 0`
and `NaN` for `0 / 0`.  `PdFloat` models that value domain. -/

/-- A pandas float-division result: a finite rational, `+inf`, or `NaN`. -/
inductive PdFloat where
  | val (q : Rat)
  | posInf
  | nan
  deriving DecidableEq, Repr

/-- Pandas/numpy true division of two non-negative integer counts: `+inf`
when the denominator is zero and the numerator positive, `NaN` for `0 / 0`,
otherwise the exact quotient.  No exception is ever raised. -/
def pdDivCounts (num den : Nat) : PdFloat :=
  if den = 0 then (if num = 0 then PdFloat.nan else PdFloat.posInf)
  else PdFloat.val ((num : Rat) / (den : Rat))

/-- Number of distinct values of a list (pandas `nunique` on a column). -/
def nunique {α : Type} [DecidableEq α] (l : List α) : Nat := l.dedup.length

/-- One row of the `pedidos_vendedor` aggregate (lines 319-323): per
salesperson, the distinct order count, distinct day-of-month count, and the
total amount sum. -/
structure VendorAgg where
  vendedor : String
  pedidoCount : Nat
  diaCount : Nat
  montoTotal : Rat
  deriving DecidableEq, Repr

/-- The `groupby('Vendedor').agg(...)` of lines 319-323: one aggregate row
per distinct salesperson of the filtered dataset. -/
def pedidos_vendedor (df : List EnrichedRecord) : List VendorAgg :=
  ((df.map (fun e => e.base.vendedor)).dedup).map (fun v =>
    let rows := df.filter (fun e => e.base.vendedor == v)
    { vendedor := v
      pedidoCount := nunique (rows.map (fun e => e.base.pedido))
      diaCount := nunique (rows.map (fun e => e.dia))
      montoTotal := (rows.map (fun e => e.base.montoTotal)).sum })

/-- The derived `Pedidos/Día` column of line 325:
`pedidos_vendedor['Pedido'] / pedidos_vendedor['Dia']`, an unguarded pandas
division of the two counts. -/
def pedidosPorDia (a : VendorAgg) : PdFloat := pdDivCounts a.pedidoCount a.diaCount

/-! ## Month-over-month comparison

Source lines 231-242 of the summary tab. -/

/-- Line 231: `mes_anterior = mes_seleccionado - 1 if mes_seleccionado > 1
else 12`. -/
def mes_anterior (mes : Nat) : Nat := if 1 < mes then mes - 1 else 12

/-- Line 232: the year of the previous period, the selected year unless the
selected month is January, in which case the previous year. -/
def ano_mes_anterior (ano mes : Nat) : Nat := if 1 < mes then ano else ano - 1

/-- Line 242: the variation percentage against the previous month, guarded
to 0 when the previous month's total is zero. -/
def variacion (ventasTotales ventasMesAnterior : Rat) : Rat :=
  if ventasMesAnterior ≠ 0 then
    (ventasTotales - ventasMesAnterior) / ventasMesAnterior * 100
  else 0

/-! ## Concrete sample data

Concrete inputs used to instantiate the theorems below: the single-record
scenario of the spec (dated 2024-03-15, amount 500, center "X", salesperson
"A"), a structurally valid parsed file, a parsed file with a null required
cell, and a parsed file missing required columns. -/

/-- The spec scenario record: dated 2024-03-15, amount 500, center "X",
salesperson "A". -/
def sampleRecord : SaleRecord :=
  { vendedor := "A"
    fechaPedido := daysFromCivil 2024 3 15
    hora := 10
    nombreCliente := "Cliente Uno"
    codigoCliente := "C001"
    pedido := "P001"
    codigoProducto := "PR01"
    nombreProducto := "Producto Uno"
    cantidad := 2
    precio := 250
    montoTotal := 500
    caja := 1
    centro := "X" }

/-- A parsed file whose header holds exactly the twelve required columns. -/
def goodFile : ParsedFile :=
  { columns := required_columns, rows := [] }

/-- A parsed file with all twelve required columns present but whose single
row has a null `Vendedor` cell: the loader's validation accepts it. -/
def badFile : ParsedFile :=
  { columns := required_columns
    rows := [[("Vendedor", none), ("Fecha Pedido", some "2024-03-15"),
              ("Nombre Cliente", some "Cliente Uno"),
              ("Codigo Cliente", some "C001"), ("Pedido", some "P001"),
              ("Codigo Producto", some "PR01"),
              ("Nombre Producto", some "Producto Uno"),
              ("Cantidad", some "2"), ("Precio", some "250"),
              ("Monto Total", some "500"), ("Caja", some "1"),
              ("Centro", some "X")]] }

/-- A parsed file whose header is missing ten of the required columns. -/
def incompleteFile : ParsedFile :=
  { columns := ["Vendedor", "Fecha Pedido"], rows := [] }

/-! ## Theorems -/

/-- C1: for every enriched dataset and every filter selection, if the
conjunctive filter would return an empty subset, the filter engine returns
the full unfiltered dataset and signals a warning; if the subset is
non-empty, the subset is returned and no warning is signalled. -/
theorem df_filtrado_fallback (df : List EnrichedRecord) (sel : FilterSelection) :
    (df.filter (matchesFilter sel) = [] → df_filtrado df sel = (df, true)) ∧
    (df.filter (matchesFilter sel) ≠ [] →
      df_filtrado df sel = (df.filter (matchesFilter sel), false)) := by
  constructor
  · intro h
    simp [df_filtrado, h]
  · intro h
    simp [df_filtrado, h]

/-- Witness for C1: on the one-record March-2024 dataset, selecting April
2024 matches nothing, so the full dataset comes back with the warning flag;
selecting March 2024 returns the subset with no warning. -/
theorem df_filtrado_fallback_witness :
    df_filtrado (enrich [sampleRecord]) ⟨2024, 4, ["X"], ["A"]⟩ =
      (enrich [sampleRecord], true) ∧
    df_filtrado (enrich [sampleRecord]) ⟨2024, 3, ["X"], ["A"]⟩ =
      (enrich [sampleRecord], false) := by
  refine ⟨(df_filtrado_fallback _ _).1 (by decide), ?_⟩
  exact ((df_filtrado_fallback (enrich [sampleRecord]) ⟨2024, 3, ["X"], ["A"]⟩).2
    (by decide)).trans (by decide)

/-- C5: for every enriched dataset and selection with a non-empty match, the
filter engine returns (with no warning) exactly the records whose year and
month equal the selection's and whose center and salesperson are members of
the selected sets. -/
theorem df_filtrado_conjunction (df : List EnrichedRecord) (sel : FilterSelection)
    (h : df.filter (matchesFilter sel) ≠ []) :
    (df_filtrado df sel).2 = false ∧
    ∀ e, e ∈ (df_filtrado df sel).1 ↔
      e ∈ df ∧ e.ano = sel.ano ∧ e.mes = sel.mes ∧
        e.base.centro ∈ sel.centros ∧ e.base.vendedor ∈ sel.vendedores := by
  have heq : df_filtrado df sel = (df.filter (matchesFilter sel), false) := by
    simp [df_filtrado, h]
  rw [heq]
  refine ⟨rfl, fun e => ?_⟩
  simp [List.mem_filter, matchesFilter, and_assoc]

/-- Witness for C5: the spec scenario — one record dated 2024-03-15, center
"X", salesperson "A", selection (2024, 3, {"X"}, {"A"}) — yields exactly
that single record with no warning. -/
theorem df_filtrado_conjunction_witness :
    (df_filtrado (enrich [sampleRecord]) ⟨2024, 3, ["X"], ["A"]⟩).2 = false ∧
    (df_filtrado (enrich [sampleRecord]) ⟨2024, 3, ["X"], ["A"]⟩).1 =
      [enrichRecord sampleRecord] := by
  have h := df_filtrado_conjunction (enrich [sampleRecord]) ⟨2024, 3, ["X"], ["A"]⟩
    (by decide)
  exact ⟨h.1, by decide⟩

/-- C6: the filter engine, empty-result fallback included, is idempotent:
filtering an already-filtered result by the same selection returns the same
records. -/
theorem df_filtrado_idempotent (df : List EnrichedRecord) (sel : FilterSelection) :
    (df_filtrado (df_filtrado df sel).1 sel).1 = (df_filtrado df sel).1 := by
  by_cases h : df.filter (matchesFilter sel) = []
  · have h1 : df_filtrado df sel = (df, true) := by simp [df_filtrado, h]
    rw [h1]
    rw [show df_filtrado df sel = (df, true) from h1]
  · have h2 : (df.filter (matchesFilter sel)).filter (matchesFilter sel) =
        df.filter (matchesFilter sel) :=
      List.filter_eq_self.mpr (fun a ha => (List.mem_filter.mp ha).2)
    have h1 : df_filtrado df sel = (df.filter (matchesFilter sel), false) := by
      simp [df_filtrado, h]
    rw [h1]
    simp [df_filtrado, h2, h]

/-- Helper: every entry of `dias_semana` read at an index below 7 is one of
the seven weekday names, and the business-day membership test of source line
124 holds exactly off "Sunday". -/
theorem dias_semana_getD_spec : ∀ k < 7,
    dias_semana.getD k "" ∈ dias_semana ∧
    ((["Monday", "Tuesday", "Wednesday", "Thursday", "Friday",
       "Saturday"].contains (dias_semana.getD k "") = true) ↔
      dias_semana.getD k "" ≠ "Sunday") ∧
    ((["Monday", "Tuesday", "Wednesday", "Thursday", "Friday",
       "Saturday"].contains (dias_semana.getD k "") = true) ↔
      dias_semana.getD k "" ∈ ["Monday", "Tuesday", "Wednesday", "Thursday",
        "Friday", "Saturday"]) := by decide

/-- Helper: the weekday index is always below 7. -/
theorem weekdayIdx_lt (n : Nat) : weekdayIdx n < 7 :=
  Nat.mod_lt _ (by norm_num)

/-- C9: temporal enrichment of a non-empty dataset assigns exactly one
derived-attribute set per record (length preserved, the i-th derived row
computed from the i-th source row), the weekday name is always drawn from
the fixed Monday-first seven-value set, and the business-day flag is true
iff the weekday is in Monday..Saturday, i.e. false exactly on Sunday. -/
theorem enrich_weekday (df : List SaleRecord) (hne : df ≠ []) :
    (enrich df).length = df.length ∧
    (∀ i : Nat, (enrich df)[i]? = (df[i]?).map enrichRecord) ∧
    ∀ e ∈ enrich df, e.diaSemana ∈ dias_semana ∧
      (e.esDiaHabil = true ↔ e.diaSemana ∈ ["Monday", "Tuesday", "Wednesday",
        "Thursday", "Friday", "Saturday"]) ∧
      (e.esDiaHabil = true ↔ e.diaSemana ≠ "Sunday") := by
  refine ⟨List.length_map _ _, fun i => List.getElem?_map .., fun e he => ?_⟩
  obtain ⟨r, _, rfl⟩ := List.mem_map.mp he
  have hspec := dias_semana_getD_spec (weekdayIdx r.fechaPedido)
    (weekdayIdx_lt r.fechaPedido)
  have hday : (enrichRecord r).diaSemana = dias_semana.getD (weekdayIdx r.fechaPedido) "" := rfl
  have hhab : (enrichRecord r).esDiaHabil =
      (["Monday", "Tuesday", "Wednesday", "Thursday", "Friday",
        "Saturday"].contains (dias_semana.getD (weekdayIdx r.fechaPedido) "")) := rfl
  rw [hday, hhab]
  exact ⟨hspec.1, hspec.2.2, hspec.2.1⟩

/-- Witness for C9: the 2024-03-15 record enriches to weekday "Friday",
a member of the seven-value set, with the business-day flag true. -/
theorem enrich_weekday_witness :
    (enrich [sampleRecord]).length = [sampleRecord].length ∧
    (enrichRecord sampleRecord).diaSemana ∈ dias_semana ∧
    ((enrichRecord sampleRecord).esDiaHabil = true ↔
      (enrichRecord sampleRecord).diaSemana ≠ "Sunday") := by
  have h := enrich_weekday [sampleRecord] (by decide)
  exact ⟨h.1, (h.2.2 (enrichRecord sampleRecord) (by decide)).1,
    (h.2.2 (enrichRecord sampleRecord) (by decide)).2.2⟩

/-- C10: the month-over-month comparison selects month−1 of the selected
year as the previous period, except that January compares against December
of the previous year; and the variation percentage is 0, not a division
error, when the previous month's total is zero. -/
theorem comparacion_mensual (ano mes : Nat) (v : Rat) :
    (mes = 1 → mes_anterior mes = 12 ∧ ano_mes_anterior ano mes = ano - 1) ∧
    (1 < mes → mes_anterior mes = mes - 1 ∧ ano_mes_anterior ano mes = ano) ∧
    variacion v 0 = 0 := by
  refine ⟨?_, ?_, ?_⟩
  · rintro rfl
    simp [mes_anterior, ano_mes_anterior]
  · intro h
    simp [mes_anterior, ano_mes_anterior, h]
  · simp [variacion]

/-- Witness for C10: January 2024 compares against December 2023, March 2024
against February 2024, and a zero previous-month total gives variation 0. -/
theorem comparacion_mensual_witness :
    (mes_anterior 1 = 12 ∧ ano_mes_anterior 2024 1 = 2023) ∧
    (mes_anterior 3 = 2 ∧ ano_mes_anterior 2024 3 = 2024) ∧
    variacion 500 0 = 0 :=
  ⟨(comparacion_mensual 2024 1 500).1 rfl,
   (comparacion_mensual 2024 3 500).2.1 (by norm_num),
   (comparacion_mensual 2024 3 500).2.2⟩

/-- C2 counterexample: the orders-per-day ratio of line 325 at a group with
5 distinct orders and 0 distinct days is `+inf` (pandas unguarded division),
not the finite value 0 the claim states. -/
theorem pedidosPorDia_cero_counterexample :
    pedidosPorDia ⟨"A", 5, 0, 100⟩ ≠ PdFloat.val 0 ∧
    pedidosPorDia ⟨"A", 5, 0, 100⟩ = PdFloat.posInf := by decide

/-- C2 amended: when the distinct-day denominator is zero the unguarded
pandas division yields `+inf` (or `NaN` when the order count is also zero),
never an error and never the finite value 0. -/
theorem pedidosPorDia_cero_dias (a : VendorAgg) (h : a.diaCount = 0) :
    pedidosPorDia a =
      (if a.pedidoCount = 0 then PdFloat.nan else PdFloat.posInf) ∧
    pedidosPorDia a ≠ PdFloat.val 0 := by
  constructor
  · simp [pedidosPorDia, pdDivCounts, h]
  · by_cases hp : a.pedidoCount = 0 <;> simp [pedidosPorDia, pdDivCounts, h, hp]

/-- Witness for C2 amended: the group with 5 orders over 0 days yields
`+inf`. -/
theorem pedidosPorDia_cero_dias_witness :
    pedidosPorDia ⟨"B", 5, 0, 100⟩ =
      (if (5 : Nat) = 0 then PdFloat.nan else PdFloat.posInf) :=
  (pedidosPorDia_cero_dias ⟨"B", 5, 0, 100⟩ rfl).1

/-- C3 counterexample: with a single failing source, the first access
through the `st.cache_data` wrapper returns the `none` failure signal and
stores it; a second access one second later (well within the 3600-second
TTL) returns the cached failure without re-invoking the pipeline. -/
theorem cache_almacena_fallos_counterexample :
    (cachedLoadData [FetchOutcome.networkError] clearCache 0).1.2 = none ∧
    (cachedLoadData [FetchOutcome.networkError]
      (cachedLoadData [FetchOutcome.networkError] clearCache 0).2.1 1).2.2 = false ∧
    (cachedLoadData [FetchOutcome.networkError]
      (cachedLoadData [FetchOutcome.networkError] clearCache 0).2.1 1).1.2 = none := by
  decide

/-- C3 amended: `st.cache_data` memoizes whatever `load_data` returns,
including the `None` failure signal, so a failed load is served from the
cache (pipeline not re-invoked) on any access within the TTL window;
only explicit cache clearing (or TTL expiry) forces a retry. -/
theorem cache_almacena_fallos (sources : List FetchOutcome)
    (ws : List SourceFailure) (t now : Nat)
    (h : load_data sources = (ws, none)) (hnow : now < t + cacheTTL) :
    cachedLoadData sources (cachedLoadData sources clearCache t).2.1 now =
      ((ws, none), (cachedLoadData sources clearCache t).2.1, false) ∧
    (cachedLoadData sources clearCache now).2.2 = true := by
  constructor
  · simp [cachedLoadData, clearCache, h, hnow]
  · simp [cachedLoadData, clearCache]

/-- Witness for C3 amended: a single network-failing source, first access at
time 0, second at time 1. -/
theorem cache_almacena_fallos_witness :
    cachedLoadData [FetchOutcome.networkError]
      (cachedLoadData [FetchOutcome.networkError] clearCache 0).2.1 1 =
      (([SourceFailure.networkError], none),
       (cachedLoadData [FetchOutcome.networkError] clearCache 0).2.1, false) :=
  (cache_almacena_fallos [FetchOutcome.networkError]
    [SourceFailure.networkError] 0 1 rfl (by decide)).1

/-- C4 counterexample: a parsed file with all twelve required columns
present but a null `Vendedor` cell in its row passes the loader's
validation and is returned as the dataset, so a successfully returned
dataset can contain a record with a null required value. -/
theorem loader_no_comprueba_nulos_counterexample :
    load_data [FetchOutcome.file badFile] = ([], some badFile) ∧
    allRequiredNonNull badFile = false := by decide

/-- C4 amended: every dataset the loader returns successfully has all
twelve required columns present in its header (the validation of lines
65-72); non-nullness of the individual cell values is not checked and not
guaranteed. -/
theorem load_data_columnas_presentes (sources : List FetchOutcome) :
    ∀ ws f, load_data sources = (ws, some f) →
      ∀ c ∈ required_columns, c ∈ f.columns := by
  induction sources with
  | nil =>
    intro ws f h
    simp [load_data] at h
  | cons o rest ih =>
    intro ws f h
    cases o with
    | networkError =>
      simp only [load_data] at h
      rw [Prod.mk.injEq] at h
      exact ih (load_data rest).1 f (by rw [← h.2])
    | emptyDownload =>
      simp only [load_data] at h
      rw [Prod.mk.injEq] at h
      exact ih (load_data rest).1 f (by rw [← h.2])
    | parseError =>
      simp only [load_data] at h
      rw [Prod.mk.injEq] at h
      exact ih (load_data rest).1 f (by rw [← h.2])
    | file g =>
      simp only [load_data] at h
      by_cases hg : missingColumns g = []
      · rw [if_pos hg, Prod.mk.injEq] at h
        obtain rfl : g = f := Option.some.inj h.2
        intro c hc
        by_contra hmem
        have hcm : c ∈ missingColumns g :=
          List.mem_filter.mpr ⟨hc, by simpa using hmem⟩
        simp [hg] at hcm
      · rw [if_neg hg, Prod.mk.injEq] at h
        exact ih (load_data rest).1 f (by rw [← h.2])

/-- Witness for C4 amended: loading a file whose header is exactly the
twelve required columns succeeds and `Vendedor` is present. -/
theorem load_data_columnas_presentes_witness :
    "Vendedor" ∈ goodFile.columns :=
  load_data_columnas_presentes [FetchOutcome.file goodFile] [] goodFile
    (by decide) "Vendedor" (by decide)

/-- C7: a parsed file missing at least one required column is rejected with
a failure naming exactly the columns that are missing (a name is in the
reported list iff it is required and absent from the file's header), and the
failure is recoverable: the loop carries on with the remaining candidate
sources. -/
theorem missing_columns_exactas (f : ParsedFile) (rest : List FetchOutcome)
    (h : missingColumns f ≠ []) :
    (∀ c, c ∈ missingColumns f ↔ c ∈ required_columns ∧ c ∉ f.columns) ∧
    load_data (FetchOutcome.file f :: rest) =
      (SourceFailure.missingCols (missingColumns f) :: (load_data rest).1,
       (load_data rest).2) := by
  constructor
  · intro c
    simp [missingColumns, List.mem_filter]
  · simp [load_data, h]

/-- Witness for C7: the file with only `Vendedor` and `Fecha Pedido` in its
header reports the other ten required columns as missing and the load moves
on (here: no further source, so the overall result is the failure signal). -/
theorem missing_columns_exactas_witness :
    ("Caja" ∈ missingColumns incompleteFile ↔
      "Caja" ∈ required_columns ∧ "Caja" ∉ incompleteFile.columns) ∧
    load_data [FetchOutcome.file incompleteFile] =
      ([SourceFailure.missingCols (missingColumns incompleteFile)], none) := by
  have h := missing_columns_exactas incompleteFile [] (by decide)
  exact ⟨h.1 "Caja", h.2.trans (by decide)⟩

/-- C8: sources are attempted strictly in listed order: the first candidate
that yields a parsed file with all required columns is returned untouched by
the remaining candidates, and a zero-byte download is a per-source failure
that is absorbed as a warning while the loop advances — in particular a
zero-byte first source followed by a valid second source loads the second
source's dataset with the first failure reported as a warning. -/
theorem fetcher_orden_fallback (f : ParsedFile) (rest : List FetchOutcome)
    (hf : missingColumns f = []) :
    load_data (FetchOutcome.file f :: rest) = ([], some f) ∧
    load_data (FetchOutcome.emptyDownload :: FetchOutcome.file f :: rest) =
      ([SourceFailure.emptyDownload], some f) := by
  refine ⟨by simp [load_data, hf], ?_⟩
  simp [load_data, hf]

/-- Witness for C8: zero-byte first source, valid second source, and a third
source that is never consulted: the load succeeds with the second source's
file and exactly one warning, the first source's empty download. -/
theorem fetcher_orden_fallback_witness :
    load_data [FetchOutcome.emptyDownload, FetchOutcome.file goodFile,
      FetchOutcome.networkError] =
      ([SourceFailure.emptyDownload], some goodFile) :=
  (fetcher_orden_fallback goodFile [FetchOutcome.networkError] (by decide)).2

end PanelVentas
